import Mathlib

/-!
Shallow embedding of the streamlit-portal-server session/token brokering
subsystem: the SQLite tables and operations of `database.py` and the
gateway (FastAPI proxy) handlers of `proxy_server.py`.

Modelling conventions:
* every SQL table is a list of row structures, in insertion order;
* `fetchone` on a `WHERE` clause is `List.find?` with the clause as predicate;
* `DELETE ... WHERE c` is `List.filter (fun r => !c r)`;
* `datetime.now()` is an explicit `now : Int` parameter, measured in minutes
  (so `timedelta(hours = h)` is `60 * h` and `timedelta(minutes = 1)` is `1`);
* freshly generated random tokens (`secrets.token_urlsafe`) are explicit
  string parameters;
* a Python `dict` (the in-memory gateway session store `active_sessions`)
  is an association list where insertion overwrites the key.
-/

/-- Row of the `users` table (database.py, `init_database`). -/
structure UserRow where
  id : Nat
  username : String
  password_hash : String
  full_name : String
  email : String
  role : String
  is_active : Bool
  created_at : Int
  last_login : Option Int
  deriving DecidableEq, Repr

/-- Row of the `apps` table. -/
structure AppRow where
  id : Nat
  port : Nat
  name : String
  description : String
  image_path : String
  category : String
  is_active : Bool
  created_at : Int
  created_by : Option Nat
  deriving DecidableEq, Repr

/-- Row of the `user_groups` table. -/
structure UserGroupRow where
  user_id : Nat
  group_name : String
  deriving DecidableEq, Repr

/-- Row of the `app_permissions` table. -/
structure AppPermissionRow where
  app_id : Nat
  group_name : String
  deriving DecidableEq, Repr

/-- Row of the `user_sessions` table. -/
structure UserSessionRow where
  user_id : Nat
  session_token : String
  created_at : Int
  expires_at : Int
  is_active : Bool
  deriving DecidableEq, Repr

/-- Row of the `access_tokens` table.  `portal_session_token` is nullable:
legacy tokens (`generate_access_token`) store NULL there. -/
structure AccessTokenRow where
  token : String
  user_id : Nat
  app_id : Nat
  portal_session_token : Option String
  expires_at : Int
  created_at : Int
  deriving DecidableEq, Repr

/-- The whole SQLite database state. -/
structure DBState where
  users : List UserRow
  apps : List AppRow
  user_groups : List UserGroupRow
  app_permissions : List AppPermissionRow
  user_sessions : List UserSessionRow
  access_tokens : List AccessTokenRow
  deriving DecidableEq, Repr

/-- The dict returned by `validate_portal_session` on success. -/
structure PortalUserView where
  id : Nat
  username : String
  full_name : String
  email : String
  role : String
  expires_at : Int
  deriving DecidableEq, Repr

/-- `database.py validate_portal_session`: join `user_sessions` with `users`
on the session token, requiring `is_active = 1` and `expires_at > now`. -/
def validate_portal_session (s : DBState) (session_token : String) (now : Int) :
    Option PortalUserView :=
  match s.user_sessions.find?
      (fun r => r.session_token == session_token && r.is_active
        && decide (now < r.expires_at)) with
  | none => none
  | some r =>
    match s.users.find? (fun u => u.id == r.user_id) with
    | none => none
    | some u => some ⟨u.id, u.username, u.full_name, u.email, u.role, r.expires_at⟩

/-- `database.py invalidate_portal_session`: `UPDATE user_sessions SET
is_active = 0 WHERE session_token = ?`; returns `True`. -/
def invalidate_portal_session (s : DBState) (session_token : String) :
    Bool × DBState :=
  let sessions := s.user_sessions.map
    (fun r => if r.session_token == session_token then { r with is_active := false } else r)
  (true, { s with user_sessions := sessions })

/-- Default of the `hours` parameter of `create_portal_session`. -/
def create_portal_session_default_hours : Int := 24

/-- `database.py create_portal_session`: delete expired sessions, delete the
user's active sessions, insert the fresh session row. -/
def create_portal_session (s : DBState) (user_id : Nat) (hours : Int)
    (session_token : String) (now : Int) : String × DBState :=
  let sessions1 := s.user_sessions.filter (fun r => !decide (r.expires_at < now))
  let sessions2 := sessions1.filter (fun r => !(r.user_id == user_id && r.is_active))
  (session_token,
   { s with user_sessions :=
       sessions2 ++ [⟨user_id, session_token, now, now + 60 * hours, true⟩] })

/-- `DELETE FROM access_tokens WHERE expires_at < now` (the opportunistic
cleanup both token-issuing operations run first). -/
def cleanup_expired_tokens (ts : List AccessTokenRow) (now : Int) :
    List AccessTokenRow :=
  ts.filter (fun r => !decide (r.expires_at < now))

/-- Default of the `hours` parameter of the legacy `generate_access_token`. -/
def generate_access_token_default_hours : Int := 24

/-- `database.py generate_access_token` (legacy path): cleanup expired
tokens, insert a row with NULL `portal_session_token`. -/
def generate_access_token (s : DBState) (user_id app_id : Nat) (hours : Int)
    (token : String) (now : Int) : String × DBState :=
  let tokens1 := cleanup_expired_tokens s.access_tokens now
  (token, { s with access_tokens :=
      tokens1 ++ [⟨token, user_id, app_id, none, now + 60 * hours, now⟩] })

/-- `database.py validate_access_token` (legacy path): a single SELECT, no
writes; the state component records that the connection is closed with the
database unchanged. -/
def validate_access_token (s : DBState) (token : String) (app_id : Nat)
    (now : Int) : Bool × DBState :=
  ((s.access_tokens.find?
      (fun r => r.token == token && r.app_id == app_id
        && decide (now < r.expires_at))).isSome, s)

/-- Default of the `hours` parameter of `generate_access_token_with_session`. -/
def generate_access_token_with_session_default_hours : Int := 1

/-- `database.py generate_access_token_with_session`: first re-validate the
portal session and check it belongs to `user_id` (raising `ValueError`
before touching the token table otherwise), then cleanup and insert the
session-bound token row. -/
def generate_access_token_with_session (s : DBState) (user_id app_id : Nat)
    (portal_session_token : String) (hours : Int) (token : String) (now : Int) :
    Except String String × DBState :=
  match validate_portal_session s portal_session_token now with
  | none => (Except.error "Invalid portal session for this user", s)
  | some info =>
    if info.id ≠ user_id then (Except.error "Invalid portal session for this user", s)
    else
      let tokens1 := cleanup_expired_tokens s.access_tokens now
      (Except.ok token,
       { s with access_tokens :=
           tokens1 ++ [⟨token, user_id, app_id, some portal_session_token,
             now + 60 * hours, now⟩] })

/-- `database.py validate_access_token_with_active_portal_session`: look up
the token row (token, app, unexpired), require a non-NULL owning portal
session, then require a matching `user_sessions` row that is active and
unexpired. -/
def validate_access_token_with_active_portal_session (s : DBState)
    (token : String) (app_id : Nat) (now : Int) : Bool :=
  match s.access_tokens.find?
      (fun r => r.token == token && r.app_id == app_id
        && decide (now < r.expires_at)) with
  | none => false
  | some r =>
    match r.portal_session_token with
    | none => false
    | some p =>
      (s.user_sessions.find?
        (fun q => q.session_token == p && q.user_id == r.user_id
          && q.is_active && decide (now < q.expires_at))).isSome

/-- `database.py delete_user`: delete the user's `user_groups` rows, then the
user row, in one transaction; returns `True`. -/
def delete_user (s : DBState) (user_id : Nat) : Bool × DBState :=
  (true,
   { s with
     user_groups := s.user_groups.filter (fun g => !(g.user_id == user_id)),
     users := s.users.filter (fun u => !(u.id == user_id)) })

/-- `database.py delete_app`: `DELETE FROM apps WHERE id = ?` only; returns
`True`.  (No statement touches `app_permissions`.) -/
def delete_app (s : DBState) (app_id : Nat) : Bool × DBState :=
  (true, { s with apps := s.apps.filter (fun a => !(a.id == app_id)) })

/-- `database.py get_user_groups`. -/
def get_user_groups (s : DBState) (user_id : Nat) : List String :=
  (s.user_groups.filter (fun g => g.user_id == user_id)).map (fun g => g.group_name)

/-- Ordering used by `ORDER BY a.name` / `apps.sort(key=lambda x: x[2])`. -/
def appNameLe (a b : AppRow) : Bool := a.name ≤ b.name

/-- `ORDER BY name` / Python stable sort by name. -/
def sortByName (l : List AppRow) : List AppRow := l.mergeSort appNameLe

/-- The de-duplication loop of `get_accessible_apps`: walk the combined list
keeping the first occurrence of each app id (`seen_ids` accumulator). -/
def dedupById : List AppRow → List Nat → List AppRow
  | [], _ => []
  | a :: rest, seen =>
    if a.id ∈ seen then dedupById rest seen
    else a :: dedupById rest (a.id :: seen)

/-- `database.py get_accessible_apps`: admins get every active app ordered by
name; other users get active apps carrying the `__public__` sentinel
permission plus active apps sharing a (non-sentinel) permission group with
the user, de-duplicated by app id and sorted by name. -/
def get_accessible_apps (s : DBState) (user_id : Nat) : List AppRow :=
  let user_groups := get_user_groups s user_id
  let user_role := (s.users.find? (fun u => u.id == user_id)).map (fun u => u.role)
  if user_role == some "admin" then
    sortByName (s.apps.filter (fun a => a.is_active))
  else
    let public_apps := s.apps.filter (fun a => a.is_active
      && s.app_permissions.any (fun p => p.app_id == a.id && p.group_name == "__public__"))
    let group_apps :=
      if user_groups.isEmpty then []
      else sortByName (s.apps.filter (fun a => a.is_active
        && s.app_permissions.any (fun p => p.app_id == a.id
            && user_groups.contains p.group_name && !(p.group_name == "__public__"))))
    sortByName (dedupById (public_apps ++ group_apps) [])

/-- Modelled from the spec (§4.5): the set of applications the spec says the
permission filter must return for a non-admin user — active applications
whose permission set contains the public sentinel, united with active
applications whose permission set intersects the user's groups. -/
def accessibleAppsSpecMember (s : DBState) (user_id : Nat) (a : AppRow) : Prop :=
  a ∈ s.apps ∧ a.is_active = true ∧
    ((∃ p ∈ s.app_permissions, p.app_id = a.id ∧ p.group_name = "__public__") ∨
     (∃ p ∈ s.app_permissions, p.app_id = a.id ∧ p.group_name ∈ get_user_groups s user_id))

/-! ## Gateway layer (`proxy_server.py`) -/

/-- A value of the in-memory `active_sessions` dict.  Plain gateway sessions
(`create_secure_session`) carry no `session_type`/`single_use`/`used`
entries; the code reads the latter two with `.get(key, False)`, so they are
modelled as fields defaulting to `false`. -/
structure GatewaySession where
  user_id : Nat
  app_id : Nat
  expires_at : Int
  created_at : Int
  session_type : Option String
  single_use : Bool
  used : Bool
  deriving DecidableEq, Repr

/-- The `active_sessions` dict: an association list; insertion overwrites. -/
abbrev GatewayStore := List (String × GatewaySession)

/-- Dict lookup `active_sessions.get(k)`. -/
def lookup_session (g : GatewayStore) (k : String) : Option GatewaySession :=
  (g.find? (fun p => p.1 == k)).map (fun p => p.2)

/-- Dict deletion `del active_sessions[k]`. -/
def erase_session (g : GatewayStore) (k : String) : GatewayStore :=
  g.filter (fun p => !(p.1 == k))

/-- Dict assignment `active_sessions[k] = v`. -/
def insert_session (g : GatewayStore) (k : String) (v : GatewaySession) :
    GatewayStore :=
  (k, v) :: erase_session g k

/-- `proxy_server.py cleanup_expired_sessions`: drop every entry with
`expires_at < now`. -/
def cleanup_expired_sessions (g : GatewayStore) (now : Int) : GatewayStore :=
  g.filter (fun p => !decide (p.2.expires_at < now))

/-- `proxy_server.py create_secure_session`: fresh cookie value mapped to a
2-hour (120-minute) plain session. -/
def create_secure_session (g : GatewayStore) (user_id app_id : Nat)
    (session_id : String) (now : Int) : String × GatewayStore :=
  (session_id, insert_session g session_id ⟨user_id, app_id, now + 120, now, none, false, false⟩)

/-- `proxy_server.py validate_session_cookie`: missing cookie, unknown
session, expired session (deleted on sight), or app-id mismatch all yield
`None`. -/
def validate_session_cookie (g : GatewayStore) (cookie : Option String)
    (app_id : Nat) (now : Int) : Option GatewaySession × GatewayStore :=
  match cookie with
  | none => (none, g)
  | some c =>
    match lookup_session g c with
    | none => (none, g)
    | some d =>
      if d.expires_at < now then (none, erase_session g c)
      else if d.app_id ≠ app_id then (none, g)
      else (some d, g)

/-- Key under which `create_iframe_page` stores an iframe validation token. -/
def iframe_key (token : String) : String := "iframe_" ++ token

/-- The session-store side effect of `proxy_server.py create_iframe_page`:
store the fresh validation token for one minute, single-use, unused. -/
def create_iframe_session (g : GatewayStore) (user_id : Nat) (app_info : AppRow)
    (validation_token : String) (now : Int) : GatewayStore :=
  insert_session g (iframe_key validation_token)
    ⟨user_id, app_info.id, now + 1, now, some "iframe_access", true, false⟩

/-- The distinguishable HTTP outcomes of `serve_app`. -/
inductive ServeResult where
  | deniedTokenInvalid
  | tokenLookupFailed
  | appNotFound
  | redirectClean (url : String)
  | deniedNoSession
  | servePage (user_id : Nat)
  deriving DecidableEq, Repr

/-- `proxy_server.py serve_app`, branch with an `auth_token` query parameter:
validate the token against its owning portal session, re-read its user,
delete the token row, mint a gateway session cookie, and redirect to the
token-free URL. -/
def serve_app_with_token (s : DBState) (g : GatewayStore) (auth_token : String)
    (app_id : Nat) (session_id : String) (now : Int) :
    ServeResult × DBState × GatewayStore :=
  let g1 := cleanup_expired_sessions g now
  if !(validate_access_token_with_active_portal_session s auth_token app_id now) then
    (ServeResult.deniedTokenInvalid, s, g1)
  else
    match s.access_tokens.find?
        (fun r => r.token == auth_token && r.app_id == app_id
          && decide (now < r.expires_at)) with
    | none => (ServeResult.tokenLookupFailed, s, g1)
    | some r =>
      let s1 : DBState :=
        { s with access_tokens := s.access_tokens.filter (fun q => !(q.token == auth_token)) }
      let g2 := (create_secure_session g1 r.user_id app_id session_id now).2
      match s1.apps.find? (fun a => a.id == app_id) with
      | none => (ServeResult.appNotFound, s1, g2)
      | some _ => (ServeResult.redirectClean ("/app/" ++ toString app_id ++ "/"), s1, g2)

/-- `proxy_server.py serve_app`, branch without an `auth_token`: validate the
session cookie; denial renders the fixed access-denied page; success serves
the iframe page (which mints an iframe validation token). -/
def serve_app_no_token (s : DBState) (g : GatewayStore) (cookie : Option String)
    (app_id : Nat) (validation_token : String) (now : Int) :
    ServeResult × GatewayStore :=
  let g1 := cleanup_expired_sessions g now
  match validate_session_cookie g1 cookie app_id now with
  | (none, g2) => (ServeResult.deniedNoSession, g2)
  | (some sd, g2) =>
    match s.apps.find? (fun a => a.id == app_id) with
    | none => (ServeResult.appNotFound, g2)
    | some app_info =>
      (ServeResult.servePage sd.user_id,
       create_iframe_session g2 sd.user_id app_info validation_token now)

/-- Responses of the `/validate-session` endpoint. -/
inductive ValidateResult where
  | invalid (reason : String)
  | valid (user_id : Nat) (app_id : Nat) (expires_at : Int)
  deriving DecidableEq, Repr

/-- Whether a `/validate-session` response reports the token as valid. -/
def ValidateResult.isValid : ValidateResult → Bool
  | .valid _ _ _ => true
  | .invalid _ => false

/-- `active_sessions[k]['used'] = True`. -/
def mark_used (g : GatewayStore) (k : String) : GatewayStore :=
  g.map (fun p => if p.1 == k then (p.1, { p.2 with used := true }) else p)

/-- `proxy_server.py validate_app_session` (`/validate-session` endpoint):
cleanup, look up the iframe entry, reject if missing / expired / wrong app /
single-use-and-used, else mark single-use entries used and report valid. -/
def validate_app_session (g : GatewayStore) (app_id : Nat)
    (session_token : String) (now : Int) : ValidateResult × GatewayStore :=
  let g1 := cleanup_expired_sessions g now
  let key := iframe_key session_token
  match lookup_session g1 key with
  | none => (ValidateResult.invalid "Session not found", g1)
  | some d =>
    if d.expires_at < now then (ValidateResult.invalid "Session expired", erase_session g1 key)
    else if d.app_id ≠ app_id then (ValidateResult.invalid "App mismatch", g1)
    else if d.single_use && d.used then
      (ValidateResult.invalid "Session already used", erase_session g1 key)
    else
      let g2 := if d.single_use then mark_used g1 key else g1
      (ValidateResult.valid d.user_id d.app_id d.expires_at, g2)

/-! ## Theorems -/

/-- C9 (amended): deleting a user deletes all of that user's
group-membership rows (and the user row) in the same transaction, leaving no
dangling membership rows; deleting an application removes only the `apps`
row and leaves `app_permissions` untouched (no cascade). -/
theorem delete_cascade_behavior (s : DBState) (uid aid : Nat) :
    (∀ gr ∈ (delete_user s uid).2.user_groups, gr.user_id ≠ uid) ∧
    (∀ u ∈ (delete_user s uid).2.users, u.id ≠ uid) ∧
    (delete_user s uid).2.apps = s.apps ∧
    (delete_app s aid).2.app_permissions = s.app_permissions ∧
    (∀ a ∈ (delete_app s aid).2.apps, a.id ≠ aid) := by
  refine ⟨?_, ?_, rfl, rfl, ?_⟩
  · intro gr hgr
    simp only [delete_user, List.mem_filter, Bool.not_eq_eq_eq_not, Bool.not_true,
      beq_eq_false_iff_ne, ne_eq] at hgr
    exact hgr.2
  · intro u hu
    simp only [delete_user, List.mem_filter, Bool.not_eq_eq_eq_not, Bool.not_true,
      beq_eq_false_iff_ne, ne_eq] at hu
    exact hu.2
  · intro a ha
    simp only [delete_app, List.mem_filter, Bool.not_eq_eq_eq_not, Bool.not_true,
      beq_eq_false_iff_ne, ne_eq] at ha
    exact ha.2

/-- C9 (counterexample): on a database holding one app (id 1) with one
permission row, `delete_app 1` deletes the app but its permission row
survives as a dangling row, so deleting an application does not cascade its
permission rows. -/
theorem delete_app_no_cascade_counterexample :
    (delete_app ⟨[], [⟨1, 8600, "A", "", "", "General", true, 0, none⟩],
        [], [⟨1, "sales"⟩], [], []⟩ 1).2.apps = [] ∧
    (delete_app ⟨[], [⟨1, 8600, "A", "", "", "General", true, 0, none⟩],
        [], [⟨1, "sales"⟩], [], []⟩ 1).2.app_permissions = [⟨1, "sales"⟩] := by
  constructor <;> rfl

/-- C8 (counterexample): the legacy issuance path `generate_access_token`
called with its default lifetime (24 hours) produces a token whose
expiry-minus-creation is 1440 minutes, which is neither at most 1 hour nor
strictly shorter than the 24-hour portal session lifetime — so the claim is
false for tokens issued by that path with its default lifetime. -/
theorem legacy_token_default_lifetime_counterexample :
    ∃ r ∈ (generate_access_token ⟨[], [], [], [], [], []⟩ 1 1
        generate_access_token_default_hours "t" 0).2.access_tokens,
      ¬(r.expires_at - r.created_at ≤ 60) ∧
      ¬(r.expires_at - r.created_at < 60 * create_portal_session_default_hours) := by
  refine ⟨⟨"t", 1, 1, none, 1440, 0⟩, ?_, by decide⟩
  simp [generate_access_token, cleanup_expired_tokens, generate_access_token_default_hours]

/-- C8 (amended): every access token issued by the session-bound path
`generate_access_token_with_session` with its default lifetime has
expiry-minus-creation of exactly 1 hour, hence at most 1 hour and strictly
shorter than the default portal session lifetime of 24 hours.  (The legacy
`generate_access_token` default of 24 hours violates the bound, see the
counterexample.) -/
theorem session_bound_token_default_lifetime (s : DBState) (u app : Nat)
    (p tok : String) (now : Int) (info : PortalUserView)
    (hval : validate_portal_session s p now = some info) (hid : info.id = u) :
    ∃ r ∈ (generate_access_token_with_session s u app p
        generate_access_token_with_session_default_hours tok now).2.access_tokens,
      r.token = tok ∧
      r.expires_at - r.created_at = 60 * generate_access_token_with_session_default_hours ∧
      r.expires_at - r.created_at ≤ 60 ∧
      r.expires_at - r.created_at < 60 * create_portal_session_default_hours := by
  have hlt : (now + 60 * generate_access_token_with_session_default_hours) - now = 60 := by
    simp [generate_access_token_with_session_default_hours]
  refine ⟨⟨tok, u, app, some p, now + 60 * generate_access_token_with_session_default_hours, now⟩,
    ?_, rfl, by ring, by rw [hlt], ?_⟩
  · simp [generate_access_token_with_session, hval, hid]
  · rw [hlt]
    decide

/-- Witness for C8 (amended) at a concrete database. -/
theorem session_bound_token_default_lifetime_witness :
    ∃ r ∈ (generate_access_token_with_session
        ⟨[⟨1, "u", "h", "", "", "user", true, 0, none⟩], [], [], [],
         [⟨1, "p", 0, 100, true⟩], []⟩ 1 2 "p"
        generate_access_token_with_session_default_hours "tok" 10).2.access_tokens,
      r.token = "tok" ∧
      r.expires_at - r.created_at = 60 * generate_access_token_with_session_default_hours ∧
      r.expires_at - r.created_at ≤ 60 ∧
      r.expires_at - r.created_at < 60 * create_portal_session_default_hours :=
  session_bound_token_default_lifetime _ 1 2 "p" "tok" 10 ⟨1, "u", "", "", "user", 100⟩
    (by decide) rfl

/-- C4: issuing a session-bound access token first re-validates the owning
portal session and confirms it belongs to the requesting user; if the
session is invalid or belongs to a different user the operation fails with
the distinct `ValueError` message and the database is left completely
unchanged — no token row is inserted. -/
theorem generate_access_token_with_session_guarded (s : DBState) (u app : Nat)
    (p tok : String) (hours now : Int)
    (h : validate_portal_session s p now = none ∨
      ∃ info, validate_portal_session s p now = some info ∧ info.id ≠ u) :
    generate_access_token_with_session s u app p hours tok now
      = (Except.error "Invalid portal session for this user", s) := by
  rcases h with h | ⟨info, hv, hne⟩
  · simp [generate_access_token_with_session, h]
  · simp [generate_access_token_with_session, hv, hne]

/-- Witness for C4: with an empty session table, issuance fails and inserts
nothing. -/
theorem generate_access_token_with_session_guarded_witness :
    generate_access_token_with_session ⟨[], [], [], [], [], []⟩ 1 1 "p" 1 "t" 0
      = (Except.error "Invalid portal session for this user",
         ⟨[], [], [], [], [], []⟩) :=
  generate_access_token_with_session_guarded _ 1 1 "p" "t" 1 0 (Or.inl (by decide))

/-- C10: the legacy validation path `validate_access_token` is read-only —
it never mutates the token table, never consults portal sessions (its result
depends only on the `access_tokens` table), and for a stored token matching
the app id and still unexpired, every call (including repeated calls)
returns true. -/
theorem validate_access_token_replayable (s : DBState) (tok : String)
    (app : Nat) (now : Int)
    (h : ∃ r ∈ s.access_tokens, r.token = tok ∧ r.app_id = app ∧ now < r.expires_at) :
    validate_access_token s tok app now = (true, s) ∧
    validate_access_token (validate_access_token s tok app now).2 tok app now = (true, s) ∧
    (∀ s' : DBState, s'.access_tokens = s.access_tokens →
      validate_access_token s' tok app now = (true, s')) := by
  obtain ⟨r, hr, hrt, hra, hre⟩ := h
  have h1 : (s.access_tokens.find?
      (fun q => q.token == tok && q.app_id == app && decide (now < q.expires_at))).isSome = true := by
    rw [List.find?_isSome]
    exact ⟨r, hr, by simp [hrt, hra, hre]⟩
  refine ⟨by simp [validate_access_token, h1], by simp [validate_access_token, h1], ?_⟩
  intro s' hs'
  simp [validate_access_token, hs', h1]

/-- Witness for C10 at a concrete one-token database. -/
theorem validate_access_token_replayable_witness :
    validate_access_token ⟨[], [], [], [], [], [⟨"t", 1, 2, none, 50, 0⟩]⟩ "t" 2 10
      = (true, ⟨[], [], [], [], [], [⟨"t", 1, 2, none, 50, 0⟩]⟩) :=
  (validate_access_token_replayable _ "t" 2 10
    ⟨⟨"t", 1, 2, none, 50, 0⟩, by simp, rfl, rfl, by decide⟩).1

/-- Helper: when the token row is found and carries an owning portal session,
`validate_access_token_with_active_portal_session` reduces to the lookup of
an active, unexpired session row for that owning session. -/
theorem validate_token_active_session_eq (s : DBState) (tok : String)
    (app : Nat) (now : Int) (r : AccessTokenRow) (p : String)
    (hfind : s.access_tokens.find? (fun q => q.token == tok && q.app_id == app
        && decide (now < q.expires_at)) = some r)
    (hp : r.portal_session_token = some p) :
    validate_access_token_with_active_portal_session s tok app now
      = (s.user_sessions.find?
          (fun q => q.session_token == p && q.user_id == r.user_id
            && q.is_active && decide (now < q.expires_at))).isSome := by
  unfold validate_access_token_with_active_portal_session
  rw [hfind]
  simp only [hp]

/-- C2: transitive revocation — a session-bound access token whose owning
portal session `p` has been invalidated (marked inactive) fails redemption
validation, and likewise if every session row carrying `p` is expired at
redemption time, even though the token row itself is still present and
unexpired; validity is re-derived from the owning session at redemption. -/
theorem access_token_transitive_revocation (s : DBState) (tok p : String)
    (app : Nat) (now : Int) (r : AccessTokenRow)
    (hfind : s.access_tokens.find? (fun q => q.token == tok && q.app_id == app
        && decide (now < q.expires_at)) = some r)
    (hp : r.portal_session_token = some p) :
    validate_access_token_with_active_portal_session
        (invalidate_portal_session s p).2 tok app now = false ∧
    ((∀ q ∈ s.user_sessions, q.session_token = p → ¬ now < q.expires_at) →
      validate_access_token_with_active_portal_session s tok app now = false) := by
  constructor
  · have hnone : ((invalidate_portal_session s p).2.user_sessions.find?
        (fun q => q.session_token == p && q.user_id == r.user_id
          && q.is_active && decide (now < q.expires_at))) = none := by
      show ((s.user_sessions.map
          (fun q => if q.session_token == p then { q with is_active := false } else q)).find?
          (fun q => q.session_token == p && q.user_id == r.user_id
            && q.is_active && decide (now < q.expires_at))) = none
      rw [List.find?_eq_none]
      intro x hx
      simp only [List.mem_map] at hx
      obtain ⟨q, _, rfl⟩ := hx
      by_cases hq : q.session_token = p
      · simp [hq]
      · simp [hq]
    have hfind' : (invalidate_portal_session s p).2.access_tokens.find?
        (fun q => q.token == tok && q.app_id == app && decide (now < q.expires_at)) = some r :=
      hfind
    rw [validate_token_active_session_eq _ tok app now r p hfind' hp, hnone]
    rfl
  · intro hexp
    have hnone : (s.user_sessions.find?
        (fun q => q.session_token == p && q.user_id == r.user_id
          && q.is_active && decide (now < q.expires_at))) = none := by
      rw [List.find?_eq_none]
      intro x hx
      by_cases hq : x.session_token = p
      · simp [hq, hexp x hx hq]
      · simp [hq]
    rw [validate_token_active_session_eq s tok app now r p hfind hp, hnone]
    rfl

/-- Witness for C2: a concrete token bound to an active session is rejected
once that session is invalidated. -/
theorem access_token_transitive_revocation_witness :
    validate_access_token_with_active_portal_session
      (invalidate_portal_session
        ⟨[], [], [], [], [⟨1, "p", 0, 100, true⟩], [⟨"t", 1, 2, some "p", 50, 0⟩]⟩ "p").2
      "t" 2 10 = false :=
  (access_token_transitive_revocation _ "t" "p" 2 10 ⟨"t", 1, 2, some "p", 50, 0⟩
    (by decide) rfl).1

/-- C3: creating a new portal session for a user deletes that user's
previously active sessions (and expired sessions), so any earlier session
token of the user — distinct from the fresh one and, by the UNIQUE
constraint, carried only by that user's rows — fails validation afterwards,
at any validation time. -/
theorem create_portal_session_single_active (s : DBState) (u : Nat)
    (hours : Int) (fresh t_old : String) (now now' : Int)
    (hne : t_old ≠ fresh)
    (huniq : ∀ r ∈ s.user_sessions, r.session_token = t_old → r.user_id = u) :
    validate_portal_session (create_portal_session s u hours fresh now).2 t_old now' = none := by
  have hnone : ((create_portal_session s u hours fresh now).2.user_sessions.find?
      (fun r => r.session_token == t_old && r.is_active
        && decide (now' < r.expires_at))) = none := by
    show (((s.user_sessions.filter (fun r => !decide (r.expires_at < now))).filter
          (fun r => !(r.user_id == u && r.is_active))
        ++ ([⟨u, fresh, now, now + 60 * hours, true⟩] : List UserSessionRow)).find?
          (fun r => r.session_token == t_old && r.is_active
            && decide (now' < r.expires_at))) = none
    rw [List.find?_eq_none]
    intro x hx
    rcases List.mem_append.mp hx with hx | hx
    · obtain ⟨hx1, hcond⟩ := List.mem_filter.mp hx
      obtain ⟨hx2, _⟩ := List.mem_filter.mp hx1
      by_cases ht : x.session_token = t_old
      · have hu : x.user_id = u := huniq x hx2 ht
        by_cases ha : x.is_active = true
        · exfalso
          simp [hu, ha] at hcond
        · simp [ha]
      · simp [ht]
    · obtain rfl := List.mem_singleton.mp hx
      have h2 : fresh ≠ t_old := Ne.symm hne
      simp [h2]
  unfold validate_portal_session
  rw [hnone]

/-- Witness for C3: after a second session is created for user 1, the first
session's token no longer validates. -/
theorem create_portal_session_single_active_witness :
    validate_portal_session
      (create_portal_session
        ⟨[⟨1, "u", "h", "", "", "user", true, 0, none⟩], [], [], [],
         [⟨1, "old", 0, 100, true⟩], []⟩ 1 24 "new" 10).2 "old" 10 = none :=
  create_portal_session_single_active _ 1 24 "new" "old" 10 10 (by decide) (by decide)

/-- C1: single-use consumption — when a launch request redeeming access
token `t` succeeds (redirects to the clean URL), the token row is deleted in
the same operation (no row with that raw token value survives), and every
second redemption attempt of the same raw token value at the launch
endpoint — for any app id, any gateway store, any later time, even within
the token's TTL window — is denied. -/
theorem serve_app_single_use (s : DBState) (g : GatewayStore) (t : String)
    (app : Nat) (sid : String) (now : Int) (url : String)
    (h : (serve_app_with_token s g t app sid now).1 = ServeResult.redirectClean url) :
    (∀ r ∈ (serve_app_with_token s g t app sid now).2.1.access_tokens, r.token ≠ t) ∧
    (∀ (g' : GatewayStore) (app' : Nat) (sid' : String) (now' : Int),
      (serve_app_with_token (serve_app_with_token s g t app sid now).2.1
          g' t app' sid' now').1 = ServeResult.deniedTokenInvalid) := by
  have hv : validate_access_token_with_active_portal_session s t app now = true := by
    by_contra hvn
    rw [Bool.not_eq_true] at hvn
    simp [serve_app_with_token, hvn] at h
  obtain ⟨r, hfind⟩ : ∃ r, s.access_tokens.find?
      (fun q => q.token == t && q.app_id == app && decide (now < q.expires_at)) = some r := by
    cases hf : s.access_tokens.find?
        (fun q => q.token == t && q.app_id == app && decide (now < q.expires_at)) with
    | none => exfalso; simp [serve_app_with_token, hv, hf] at h
    | some r => exact ⟨r, rfl⟩
  have hstate : (serve_app_with_token s g t app sid now).2.1
      = { s with access_tokens := s.access_tokens.filter (fun q => !(q.token == t)) } := by
    cases happ : s.apps.find? (fun a => a.id == app) with
    | none => simp [serve_app_with_token, hv, hfind, happ]
    | some a => simp [serve_app_with_token, hv, hfind, happ]
  constructor
  · rw [hstate]
    intro rr hrr
    have := (List.mem_filter.mp hrr).2
    simpa using this
  · intro g' app' sid' now'
    have hnone : ({ s with access_tokens :=
        s.access_tokens.filter (fun q => !(q.token == t)) } : DBState).access_tokens.find?
        (fun q => q.token == t && q.app_id == app' && decide (now' < q.expires_at)) = none := by
      show (s.access_tokens.filter (fun q => !(q.token == t))).find?
        (fun q => q.token == t && q.app_id == app' && decide (now' < q.expires_at)) = none
      rw [List.find?_eq_none]
      intro x hx
      have hxt := (List.mem_filter.mp hx).2
      simp only [Bool.not_eq_eq_eq_not, Bool.not_true, beq_eq_false_iff_ne, ne_eq] at hxt
      simp [hxt]
    have hvf : validate_access_token_with_active_portal_session
        ({ s with access_tokens := s.access_tokens.filter (fun q => !(q.token == t)) })
        t app' now' = false := by
      unfold validate_access_token_with_active_portal_session
      rw [hnone]
    rw [hstate]
    simp [serve_app_with_token, hvf]

/-- Witness for C1: a concrete launch succeeds once and the immediate second
redemption of the same raw token is denied. -/
theorem serve_app_single_use_witness :
    (serve_app_with_token
      (serve_app_with_token
        ⟨[], [⟨1, 8501, "A", "", "", "General", true, 0, none⟩], [], [],
         [⟨1, "p", 0, 100, true⟩], [⟨"t", 1, 1, some "p", 50, 0⟩]⟩
        [] "t" 1 "sid" 10).2.1 [] "t" 1 "sid2" 10).1
      = ServeResult.deniedTokenInvalid :=
  (serve_app_single_use _ [] "t" 1 "sid" 10 ("/app/" ++ toString 1 ++ "/")
    (by decide)).2 [] 1 "sid2" 10

/-- C7 (counterexample): a request to the gateway with no session cookie is
denied, yet the gateway session store changes: the routine cleanup sweep at
the start of `serve_app` removes an (unrelated) expired entry, so the store
is not left unchanged on the denial path. -/
theorem serve_app_denial_mutates_store_counterexample :
    (serve_app_no_token ⟨[], [], [], [], [], []⟩
        [("k", ⟨1, 2, 0, 0, none, false, false⟩)] none 2 "v" 1).1
      = ServeResult.deniedNoSession ∧
    (serve_app_no_token ⟨[], [], [], [], [], []⟩
        [("k", ⟨1, 2, 0, 0, none, false, false⟩)] none 2 "v" 1).2
      ≠ [("k", ⟨1, 2, 0, 0, none, false, false⟩)] := by
  constructor
  · rfl
  · decide

/-- C7 (amended): for every gateway request whose session cookie is missing,
unknown, expired, or bound to a different application, the request is denied
with the fixed access-denied response, and the session store is left
unchanged except that the routine sweep removes expired entries: the
resulting store is exactly the input store with expired entries filtered
out, so no entry is added or modified and no unexpired entry is removed. -/
theorem gateway_denial_frame (s : DBState) (g : GatewayStore)
    (cookie : Option String) (app : Nat) (vtok : String) (now : Int)
    (h : (validate_session_cookie (cleanup_expired_sessions g now) cookie app now).1 = none) :
    serve_app_no_token s g cookie app vtok now
      = (ServeResult.deniedNoSession, cleanup_expired_sessions g now) := by
  have hv : validate_session_cookie (cleanup_expired_sessions g now) cookie app now
      = (none, cleanup_expired_sessions g now) := by
    unfold validate_session_cookie at h ⊢
    cases cookie with
    | none => rfl
    | some c =>
      cases hl : lookup_session (cleanup_expired_sessions g now) c with
      | none => simp [hl]
      | some d =>
        have hd : ¬ d.expires_at < now := by
          obtain ⟨q, hq, hq2⟩ : ∃ q, (cleanup_expired_sessions g now).find?
              (fun p => p.1 == c) = some q ∧ q.2 = d := by
            unfold lookup_session at hl
            cases hf : (cleanup_expired_sessions g now).find? (fun p => p.1 == c) with
            | none => rw [hf] at hl; simp at hl
            | some q => rw [hf] at hl; simp at hl; exact ⟨q, rfl, hl⟩
          have hmem := List.mem_of_find?_eq_some hq
          have hkeep := (List.mem_filter.mp hmem).2
          rw [hq2] at hkeep
          simpa using hkeep
        by_cases hm : d.app_id ≠ app
        · simp [hl, hd, hm]
        · exfalso
          simp [hl, hd, hm] at h
  simp only [serve_app_no_token]
  rw [hv]

/-- Witness for C7 (amended): denial with a missing cookie sweeps the
expired entry and returns the fixed denial result. -/
theorem gateway_denial_frame_witness :
    serve_app_no_token ⟨[], [], [], [], [], []⟩
        [("k", ⟨1, 2, 0, 0, none, false, false⟩)] none 2 "v" 1
      = (ServeResult.deniedNoSession, []) :=
  gateway_denial_frame _ [("k", ⟨1, 2, 0, 0, none, false, false⟩)] none 2 "v" 1 (by decide)

/-- Helper: `active_sessions[k]["used"] = True` leaves a store without key
`k` unchanged. -/
theorem mark_used_no_key (l : GatewayStore) (k : String)
    (h : ∀ p ∈ l, p.1 ≠ k) : mark_used l k = l := by
  induction l with
  | nil => rfl
  | cons a l ih =>
    have ha : (a.1 == k) = false := by
      simpa using h a (List.mem_cons_self a l)
    simp only [mark_used, List.map_cons, ha, Bool.false_eq_true, if_false]
    rw [show (List.map (fun p => if p.1 == k then (p.1, { p.2 with used := true }) else p) l)
        = mark_used l k from rfl]
    rw [ih (fun p hp => h p (List.mem_cons_of_mem a hp))]

/-- Helper: if every store entry under the iframe key of `tok` is single-use
and already used, the validate endpoint reports `tok` invalid (on any branch:
missing, expired, app mismatch, or already-used). -/
theorem iframe_invalid_of_all_used (g : GatewayStore) (tok : String)
    (app : Nat) (now : Int)
    (h : ∀ p ∈ g, p.1 = iframe_key tok → p.2.single_use = true ∧ p.2.used = true) :
    ((validate_app_session g app tok now).1).isValid = false := by
  simp only [validate_app_session]
  cases hl : lookup_session (cleanup_expired_sessions g now) (iframe_key tok) with
  | none => simp [hl, ValidateResult.isValid]
  | some d =>
    have hd : d.single_use = true ∧ d.used = true := by
      obtain ⟨q, hq, hq2⟩ : ∃ q, (cleanup_expired_sessions g now).find?
          (fun p => p.1 == iframe_key tok) = some q ∧ q.2 = d := by
        unfold lookup_session at hl
        cases hf : (cleanup_expired_sessions g now).find? (fun p => p.1 == iframe_key tok) with
        | none => rw [hf] at hl; simp at hl
        | some q => rw [hf] at hl; simp at hl; exact ⟨q, rfl, hl⟩
      have hmem : q ∈ g := (List.mem_filter.mp (List.mem_of_find?_eq_some hq)).1
      have hkey : q.1 = iframe_key tok := by
        simpa using List.find?_some hq
      exact hq2 ▸ h q hmem hkey
    by_cases h1 : d.expires_at < now
    · simp [hl, h1, ValidateResult.isValid]
    · by_cases h2 : d.app_id ≠ app
      · simp [hl, h1, h2, ValidateResult.isValid]
      · simp [hl, h1, h2, hd.1, hd.2, ValidateResult.isValid]

/-- C6: iframe single-use token — for a freshly minted iframe validation
token (as stored by `create_iframe_page`), the first check at the validate
endpoint at any time within its one-minute window succeeds and flips the
entry's used-flag, and every subsequent check of the same token — at any
time, even before the one-minute expiry has elapsed, and for any app id —
is denied. -/
theorem iframe_token_single_use (g : GatewayStore) (user : Nat)
    (app_info : AppRow) (tok : String) (now now1 : Int)
    (hkeep : ¬ now + 1 < now1) :
    (validate_app_session (create_iframe_session g user app_info tok now)
        app_info.id tok now1).1
      = ValidateResult.valid user app_info.id (now + 1) ∧
    (∀ p ∈ (validate_app_session (create_iframe_session g user app_info tok now)
        app_info.id tok now1).2, p.1 = iframe_key tok → p.2.used = true) ∧
    (∀ (app2 : Nat) (now2 : Int),
      ((validate_app_session
          (validate_app_session (create_iframe_session g user app_info tok now)
            app_info.id tok now1).2 app2 tok now2).1).isValid = false) := by
  have hg1 : cleanup_expired_sessions (create_iframe_session g user app_info tok now) now1
      = (iframe_key tok, ⟨user, app_info.id, now + 1, now, some "iframe_access", true, false⟩)
        :: cleanup_expired_sessions (erase_session g (iframe_key tok)) now1 := by
    simp [create_iframe_session, insert_session, cleanup_expired_sessions,
      List.filter_cons, hkeep]
  have hlook : lookup_session
      (cleanup_expired_sessions (create_iframe_session g user app_info tok now) now1)
      (iframe_key tok)
      = some ⟨user, app_info.id, now + 1, now, some "iframe_access", true, false⟩ := by
    rw [hg1]
    simp [lookup_session]
  have hnokey : ∀ p ∈ cleanup_expired_sessions (erase_session g (iframe_key tok)) now1,
      p.1 ≠ iframe_key tok := by
    intro p hp
    have hp1 : p ∈ erase_session g (iframe_key tok) := (List.mem_filter.mp hp).1
    have := (List.mem_filter.mp hp1).2
    simpa using this
  have hsnd : (validate_app_session (create_iframe_session g user app_info tok now)
      app_info.id tok now1).2
      = (iframe_key tok, ⟨user, app_info.id, now + 1, now, some "iframe_access", true, true⟩)
        :: cleanup_expired_sessions (erase_session g (iframe_key tok)) now1 := by
    simp only [validate_app_session]
    rw [hlook]
    simp only [hkeep, if_false]
    simp only [ne_eq, not_true_eq_false, if_false, Bool.and_self, Bool.and_false,
      Bool.false_eq_true, if_true]
    rw [hg1]
    simp only [mark_used, List.map_cons, beq_self_eq_true, if_true]
    rw [show (List.map (fun p => if p.1 == iframe_key tok
        then (p.1, { p.2 with used := true }) else p)
        (cleanup_expired_sessions (erase_session g (iframe_key tok)) now1))
      = mark_used (cleanup_expired_sessions (erase_session g (iframe_key tok)) now1)
          (iframe_key tok) from rfl]
    rw [mark_used_no_key _ _ hnokey]
  refine ⟨?_, ?_, ?_⟩
  · simp only [validate_app_session]
    rw [hlook]
    simp [hkeep]
  · rw [hsnd]
    intro p hp hkey
    rcases List.mem_cons.mp hp with rfl | hp
    · rfl
    · exact absurd hkey (hnokey p hp)
  · intro app2 now2
    apply iframe_invalid_of_all_used
    rw [hsnd]
    intro p hp hkey
    rcases List.mem_cons.mp hp with rfl | hp
    · exact ⟨rfl, rfl⟩
    · exact absurd hkey (hnokey p hp)

/-- Witness for C6: a concrete iframe token validates once, then a repeated
check within the one-minute window is denied. -/
theorem iframe_token_single_use_witness :
    (validate_app_session
      (create_iframe_session [] 1 ⟨2, 8501, "A", "", "", "General", true, 0, none⟩ "v" 0)
      2 "v" 0).1 = ValidateResult.valid 1 2 1 ∧
    ((validate_app_session
      (validate_app_session
        (create_iframe_session [] 1 ⟨2, 8501, "A", "", "", "General", true, 0, none⟩ "v" 0)
        2 "v" 0).2 2 "v" 0).1).isValid = false :=
  ⟨(iframe_token_single_use [] 1 ⟨2, 8501, "A", "", "", "General", true, 0, none⟩
      "v" 0 0 (by decide)).1,
   (iframe_token_single_use [] 1 ⟨2, 8501, "A", "", "", "General", true, 0, none⟩
      "v" 0 0 (by decide)).2.2 2 0⟩

/-- `appNameLe` is transitive. -/
theorem appNameLe_trans : ∀ (a b c : AppRow),
    appNameLe a b → appNameLe b c → appNameLe a c := by
  intro a b c h1 h2
  simp only [appNameLe, decide_eq_true_eq] at *
  exact le_trans h1 h2

/-- `appNameLe` is total. -/
theorem appNameLe_total : ∀ (a b : AppRow), appNameLe a b || appNameLe b a := by
  intro a b
  simp only [appNameLe, Bool.or_eq_true, decide_eq_true_eq]
  exact le_total a.name b.name

/-- `sortByName` permutes its input. -/
theorem sortByName_perm (l : List AppRow) : List.Perm (sortByName l) l :=
  List.mergeSort_perm l appNameLe

/-- `sortByName` sorts by name. -/
theorem sortByName_sorted (l : List AppRow) :
    (sortByName l).Pairwise (fun a b => a.name ≤ b.name) := by
  have h := List.sorted_mergeSort appNameLe_trans appNameLe_total l
  refine h.imp ?_
  intro a b hab
  simpa only [appNameLe, decide_eq_true_eq] using hab

/-- Membership in the de-duplication pass, assuming distinct rows never
share an app id (the `apps.id` primary-key invariant). -/
theorem dedupById_mem (l : List AppRow) (seen : List Nat) (x : AppRow)
    (huniq : ∀ a ∈ l, ∀ b ∈ l, a.id = b.id → a = b) :
    x ∈ dedupById l seen ↔ (x ∈ l ∧ x.id ∉ seen) := by
  induction l generalizing seen with
  | nil => simp [dedupById]
  | cons a rest ih =>
    have huniq' : ∀ c ∈ rest, ∀ b ∈ rest, c.id = b.id → c = b :=
      fun c hc b hb => huniq c (List.mem_cons_of_mem a hc) b (List.mem_cons_of_mem a hb)
    by_cases hs : a.id ∈ seen
    · simp only [dedupById, if_pos hs]
      rw [ih seen huniq']
      constructor
      · rintro ⟨h1, h2⟩
        exact ⟨List.mem_cons_of_mem a h1, h2⟩
      · rintro ⟨h1, h2⟩
        rcases List.mem_cons.mp h1 with rfl | h1
        · exact absurd hs h2
        · exact ⟨h1, h2⟩
    · simp only [dedupById, if_neg hs, List.mem_cons]
      rw [ih (a.id :: seen) huniq']
      constructor
      · rintro (rfl | ⟨h1, h2⟩)
        · exact ⟨Or.inl rfl, hs⟩
        · exact ⟨Or.inr h1, fun hseen => h2 (List.mem_cons_of_mem _ hseen)⟩
      · rintro ⟨h1, h2⟩
        rcases h1 with rfl | h1
        · exact Or.inl rfl
        · by_cases hid : x.id = a.id
          · exact Or.inl (huniq x (List.mem_cons_of_mem a h1) a (List.mem_cons_self a rest) hid)
          · refine Or.inr ⟨h1, ?_⟩
            simp only [List.mem_cons, not_or]
            exact ⟨hid, h2⟩

/-- The de-duplication pass yields pairwise-distinct app ids, none of them
in the seen-set. -/
theorem dedupById_nodup (l : List AppRow) (seen : List Nat) :
    ((dedupById l seen).map (fun a => a.id)).Nodup ∧
    (∀ x ∈ dedupById l seen, x.id ∉ seen) := by
  induction l generalizing seen with
  | nil => simp [dedupById]
  | cons a rest ih =>
    by_cases hs : a.id ∈ seen
    · simpa only [dedupById, if_pos hs] using ih seen
    · have ih' := ih (a.id :: seen)
      constructor
      · simp only [dedupById, if_neg hs, List.map_cons, List.nodup_cons]
        refine ⟨?_, ih'.1⟩
        intro hmem
        obtain ⟨y, hy, hyid⟩ := List.mem_map.mp hmem
        apply ih'.2 y hy
        rw [hyid]
        exact List.mem_cons_self _ _
      · intro x hx
        simp only [dedupById, if_neg hs, List.mem_cons] at hx
        rcases hx with rfl | hx
        · exact hs
        · intro hxs
          exact ih'.2 x hx (List.mem_cons_of_mem _ hxs)

/-- Unfolding of `get_accessible_apps` on the admin branch. -/
theorem get_accessible_apps_admin_perm (s : DBState) (u : Nat)
    (hadmin : ((s.users.find? (fun x => x.id == u)).map (fun x => x.role)) = some "admin") :
    List.Perm (get_accessible_apps s u) (s.apps.filter (fun x => x.is_active)) := by
  have hcond : (((s.users.find? (fun x => x.id == u)).map (fun x => x.role))
      == some "admin") = true := by
    simpa using hadmin
  simp only [get_accessible_apps, hcond, if_true]
  exact sortByName_perm _

/-- Unfolding of `get_accessible_apps` on the non-admin branch. -/
theorem get_accessible_apps_non_admin_eq (s : DBState) (u : Nat)
    (hadmin : ((s.users.find? (fun x => x.id == u)).map (fun x => x.role)) ≠ some "admin") :
    get_accessible_apps s u = sortByName (dedupById (
      (s.apps.filter (fun x => x.is_active && s.app_permissions.any
        (fun p => p.app_id == x.id && p.group_name == "__public__")))
      ++ (if (get_user_groups s u).isEmpty then ([] : List AppRow)
          else sortByName (s.apps.filter (fun x => x.is_active
            && s.app_permissions.any (fun p => p.app_id == x.id
              && (get_user_groups s u).contains p.group_name
              && !(p.group_name == "__public__")))))) []) := by
  have hcond : (((s.users.find? (fun x => x.id == u)).map (fun x => x.role))
      == some "admin") = false := by
    simpa using hadmin
  simp only [get_accessible_apps, hcond, Bool.false_eq_true, if_false]

/-- Membership characterization of `get_accessible_apps` for non-admin
users, under the `apps.id` primary-key invariant: exactly the spec's union
of public-sentinel apps and group-intersecting apps, restricted to active
apps. -/
theorem get_accessible_apps_mem_non_admin (s : DBState) (u : Nat) (a : AppRow)
    (hids : (s.apps.map (fun x => x.id)).Nodup)
    (hadmin : ((s.users.find? (fun x => x.id == u)).map (fun x => x.role)) ≠ some "admin") :
    a ∈ get_accessible_apps s u ↔ accessibleAppsSpecMember s u a := by
  rw [get_accessible_apps_non_admin_eq s u hadmin]
  have hsub : ∀ x ∈ (s.apps.filter (fun x => x.is_active && s.app_permissions.any
        (fun p => p.app_id == x.id && p.group_name == "__public__")))
      ++ (if (get_user_groups s u).isEmpty then ([] : List AppRow)
          else sortByName (s.apps.filter (fun x => x.is_active
            && s.app_permissions.any (fun p => p.app_id == x.id
              && (get_user_groups s u).contains p.group_name
              && !(p.group_name == "__public__"))))), x ∈ s.apps := by
    intro x hx
    rcases List.mem_append.mp hx with hx | hx
    · exact (List.mem_filter.mp hx).1
    · by_cases hemp : (get_user_groups s u).isEmpty
      · rw [if_pos hemp] at hx
        simp at hx
      · rw [if_neg hemp] at hx
        exact (List.mem_filter.mp ((sortByName_perm _).mem_iff.mp hx)).1
  have huniq := fun x hx y hy hxy =>
    List.inj_on_of_nodup_map hids (hsub x hx) (hsub y hy) hxy
  rw [(sortByName_perm _).mem_iff, dedupById_mem _ [] a huniq]
  simp only [List.not_mem_nil, not_false_iff, and_true, List.mem_append]
  unfold accessibleAppsSpecMember
  by_cases hemp : (get_user_groups s u).isEmpty
  · have hg : get_user_groups s u = [] := by simpa using hemp
    rw [if_pos hemp, hg]
    simp only [List.not_mem_nil, or_false, List.mem_filter, Bool.and_eq_true,
      List.any_eq_true, beq_iff_eq, and_false, false_and, exists_false]
  · rw [if_neg hemp, (sortByName_perm _).mem_iff]
    have hpubiff : a ∈ s.apps.filter (fun x => x.is_active && s.app_permissions.any
        (fun p => p.app_id == x.id && p.group_name == "__public__"))
        ↔ a ∈ s.apps ∧ a.is_active = true ∧
          ∃ p, p ∈ s.app_permissions ∧ p.app_id = a.id ∧ p.group_name = "__public__" := by
      rw [List.mem_filter]
      simp only [Bool.and_eq_true, List.any_eq_true, beq_iff_eq, and_assoc]
    have hgrpiff : a ∈ s.apps.filter (fun x => x.is_active && s.app_permissions.any
        (fun p => p.app_id == x.id && (get_user_groups s u).contains p.group_name
          && !(p.group_name == "__public__")))
        ↔ a ∈ s.apps ∧ a.is_active = true ∧
          ∃ p, p ∈ s.app_permissions ∧ p.app_id = a.id ∧
            p.group_name ∈ get_user_groups s u ∧ p.group_name ≠ "__public__" := by
      rw [List.mem_filter]
      simp only [Bool.and_eq_true, List.any_eq_true, beq_iff_eq, List.elem_iff,
        Bool.not_eq_eq_eq_not, Bool.not_true, beq_eq_false_iff_ne, ne_eq, and_assoc]
    rw [hpubiff, hgrpiff]
    constructor
    · rintro (⟨ha, hact, p, hp, h1, h2⟩ | ⟨ha, hact, p, hp, h1, h2, h3⟩)
      · exact ⟨ha, hact, Or.inl ⟨p, hp, h1, h2⟩⟩
      · exact ⟨ha, hact, Or.inr ⟨p, hp, h1, h2⟩⟩
    · rintro ⟨ha, hact, h | h⟩
      · obtain ⟨p, hp, h1, h2⟩ := h
        exact Or.inl ⟨ha, hact, p, hp, h1, h2⟩
      · obtain ⟨p, hp, h1, h2⟩ := h
        by_cases hpub : p.group_name = "__public__"
        · exact Or.inl ⟨ha, hact, p, hp, h1, hpub⟩
        · exact Or.inr ⟨ha, hact, p, hp, h1, h2, hpub⟩

/-- C5: the accessible-application computation returns all active
applications for admins; for every other user it returns exactly the union
of active applications carrying the public sentinel permission and active
applications whose permission set intersects the user's groups — the spec's
`accessibleAppsSpecMember` — de-duplicated by application id and ordered by
application name.  Assumes the `apps.id` primary-key invariant. -/
theorem get_accessible_apps_correct (s : DBState) (u : Nat)
    (hids : (s.apps.map (fun x => x.id)).Nodup) :
    (((s.users.find? (fun x => x.id == u)).map (fun x => x.role)) = some "admin" →
      List.Perm (get_accessible_apps s u) (s.apps.filter (fun x => x.is_active))) ∧
    (((s.users.find? (fun x => x.id == u)).map (fun x => x.role)) ≠ some "admin" →
      (∀ a, a ∈ get_accessible_apps s u ↔ accessibleAppsSpecMember s u a) ∧
      ((get_accessible_apps s u).map (fun x => x.id)).Nodup ∧
      (get_accessible_apps s u).Pairwise (fun a b => a.name ≤ b.name)) := by
  refine ⟨fun h => get_accessible_apps_admin_perm s u h, fun h => ⟨?_, ?_, ?_⟩⟩
  · exact fun a => get_accessible_apps_mem_non_admin s u a hids h
  · rw [get_accessible_apps_non_admin_eq s u h]
    have h1 := (dedupById_nodup ((s.apps.filter (fun x => x.is_active
        && s.app_permissions.any (fun p => p.app_id == x.id && p.group_name == "__public__")))
      ++ (if (get_user_groups s u).isEmpty then ([] : List AppRow)
          else sortByName (s.apps.filter (fun x => x.is_active
            && s.app_permissions.any (fun p => p.app_id == x.id
              && (get_user_groups s u).contains p.group_name
              && !(p.group_name == "__public__")))))) []).1
    exact (((sortByName_perm _).map (fun x => x.id)).nodup_iff).mpr h1
  · rw [get_accessible_apps_non_admin_eq s u h]
    exact sortByName_sorted _

/-- Witness for C5 at a concrete database: user 1 (non-admin, group
`sales`) sees the public app and the sales app but not the hidden app. -/
theorem get_accessible_apps_correct_witness :
    ⟨1, 8501, "P", "", "", "General", true, 0, none⟩ ∈ get_accessible_apps
        ⟨[⟨1, "u", "h", "", "", "user", true, 0, none⟩],
         [⟨1, 8501, "P", "", "", "General", true, 0, none⟩,
          ⟨2, 8502, "S", "", "", "General", true, 0, none⟩,
          ⟨3, 8503, "H", "", "", "General", true, 0, none⟩],
         [⟨1, "sales"⟩],
         [⟨1, "__public__"⟩, ⟨2, "sales"⟩, ⟨3, "secret"⟩],
         [], []⟩ 1
      ↔ accessibleAppsSpecMember
        ⟨[⟨1, "u", "h", "", "", "user", true, 0, none⟩],
         [⟨1, 8501, "P", "", "", "General", true, 0, none⟩,
          ⟨2, 8502, "S", "", "", "General", true, 0, none⟩,
          ⟨3, 8503, "H", "", "", "General", true, 0, none⟩],
         [⟨1, "sales"⟩],
         [⟨1, "__public__"⟩, ⟨2, "sales"⟩, ⟨3, "secret"⟩],
         [], []⟩ 1 ⟨1, 8501, "P", "", "", "General", true, 0, none⟩ :=
  ((get_accessible_apps_correct _ 1 (by decide)).2 (by decide)).1
    ⟨1, 8501, "P", "", "", "General", true, 0, none⟩
